import Mathlib

/-!
Shallow embedding of the slog-discord handler (`handler.go`) together with the
embed data model described by the specification.  Durations are modelled in
nanoseconds (Go `time.Duration`), severity levels as integers (Go `slog.Level`,
where Debug = -4, Info = 0, Warn = 4, Error = 8).
-/

namespace SlogDiscord

/-- One `{name, value, inline}` field of a Discord embed.
Modelled from the spec: the embed types live in a repository file that is not
under `src/`; the wire format in spec section 6 fixes their shape. -/
structure EmbedField where
  name : String
  value : String
  inline : Bool
deriving DecidableEq, Repr

/-- Optional footer of a Discord embed.
Modelled from the spec: wire format, spec section 6. -/
structure EmbedFooter where
  text : String
deriving DecidableEq, Repr

/-- A Discord embed: title, description, numeric color, RFC3339 timestamp
string, field list, optional footer.
Modelled from the spec: wire format, spec section 6. -/
structure DiscordEmbed where
  title : String
  description : String
  color : Nat
  timestamp : String
  fields : List EmbedField
  footer : Option EmbedFooter
deriving DecidableEq, Repr

/-- `LevelColors`: map from severity-level name to numeric color, modelled as
an association list; Go map indexing yields the zero value for absent keys. -/
abbrev LevelColors := List (String × Nat)

/-- A record attribute key/value pair (`slog.Attr`, values stringified). -/
abbrev Attr := String × String

/-- A `slog.Record`: level, time, message, attributes attached at the call. -/
structure Record where
  level : Int
  time : Nat
  message : String
  attrs : List Attr
deriving DecidableEq, Repr

/-- `CustomEmbed`: user function from record and color table to an embed
pointer; `none` models a nil `*DiscordEmbed`. -/
abbrev CustomEmbed := Record → LevelColors → Option DiscordEmbed

/-- `DiscordWebhookConfig` from `handler.go`. -/
structure DiscordWebhookConfig where
  minLevel : Int
  timeout : Nat
  webhookURL : String
  username : String
  avatarURL : String
  levelColors : LevelColors
  customEmbed : Option CustomEmbed

/-- `DiscordHandler` from `handler.go`: wraps the configuration. -/
structure DiscordHandler where
  config : DiscordWebhookConfig

/-- `NewDiscordHandler` from `handler.go`. -/
def NewDiscordHandler (cfg : DiscordWebhookConfig) : DiscordHandler :=
  ⟨cfg⟩

/-- The payload POSTed to the webhook (`Payload` in `handler.go`). -/
structure Payload where
  username : String
  avatarURL : String
  embeds : List DiscordEmbed
deriving DecidableEq, Repr

/-- `slog.Level.String()` from the standard library: base name of the nearest
lower named level with a `%+d` offset suffix when nonzero. -/
def levelString (l : Int) : String :=
  let str := fun (base : String) (val : Int) =>
    if val = 0 then base
    else if 0 < val then base ++ "+" ++ toString val
    else base ++ toString val
  if l < 0 then str "DEBUG" (l + 4)
  else if l < 4 then str "INFO" l
  else if l < 8 then str "WARN" (l - 4)
  else str "ERROR" (l - 8)

/-- `Enabled` from `handler.go`: if the stored minimum level is the zero
value it is overwritten with `slog.LevelDebug` (-4) on the handler itself,
then the record level is compared against the stored minimum.  The receiver
is a pointer, so the write persists; the updated handler is returned. -/
def Enabled (h : DiscordHandler) (lvl : Int) : DiscordHandler × Bool :=
  let cfg := h.config
  let cfg := if cfg.minLevel = 0 then { cfg with minLevel := -4 } else cfg
  (⟨cfg⟩, decide (cfg.minLevel ≤ lvl))

/-- Modelled from the spec: `DefaultEmbed` lives in a repository file that is
not under `src/` (only its caller `Handle` is).  Spec section 4.1: title =
severity level name; description = message text; color = `levelColors[level]`
(zero value if key absent); timestamp = current time in RFC3339 form, passed
here as the string `now`; fields = one non-inline entry per attribute; no
footer. -/
def DefaultEmbed (r : Record) (lc : LevelColors) (now : String) : DiscordEmbed :=
  { title := levelString r.level
    description := r.message
    color := (lc.lookup (levelString r.level)).getD 0
    timestamp := now
    fields := r.attrs.map (fun a => { name := a.1, value := a.2, inline := false })
    footer := none }

/-- Embed selection inside `Handle`: the configured custom function if any,
otherwise `DefaultEmbed`. -/
def buildEmbed (cfg : DiscordWebhookConfig) (r : Record) (now : String) :
    Option DiscordEmbed :=
  match cfg.customEmbed with
  | some f => f r cfg.levelColors
  | none => some (DefaultEmbed r cfg.levelColors now)

/-- Payload construction inside `Handle`: dereferences the embed pointer
(`none` propagates, modelling the nil-dereference panic) and wraps the single
embed with the configured username and avatar. -/
def buildPayload (cfg : DiscordWebhookConfig) (r : Record) (now : String) :
    Option Payload :=
  (buildEmbed cfg r now).map
    (fun embed => { username := cfg.username, avatarURL := cfg.avatarURL, embeds := [embed] })

/-- An HTTP response as seen by `sendToDiscord`: status code and body. -/
structure HttpResponse where
  statusCode : Nat
  body : String
deriving DecidableEq, Repr

/-- Timeout resolution in `sendToDiscord`: when the stored configuration
timeout is zero, the local per-call value is overwritten with 5 seconds. -/
def resolveTimeout (cfgTimeout timeOut : Nat) : Nat :=
  if cfgTimeout = 0 then 5000000000 else timeOut

/-- `sendToDiscord` from `handler.go`.  The HTTP client call `client.Do` is
modelled by `transport`, a function of the client timeout; `json.Marshal`
cannot fail on `Payload` and URL construction succeeds for the stored string,
so those error paths are not reachable here.  The method never assigns to
`h.config`, so the configuration is returned unchanged. -/
def sendToDiscord (cfg : DiscordWebhookConfig) (payload : Payload) (timeOut : Nat)
    (transport : Nat → Except String HttpResponse) :
    DiscordWebhookConfig × Except String Unit :=
  let _ := payload
  let timeOut := resolveTimeout cfg.timeout timeOut
  match transport timeOut with
  | .error e => (cfg, .error ("request failed: " ++ e))
  | .ok resp =>
    if 400 ≤ resp.statusCode then
      (cfg, .error ("discord returned non-OK status: " ++ toString resp.statusCode))
    else
      (cfg, .ok ())

/-- `Handle` from `handler.go`: build the embed (custom or default), wrap it
in a payload, send.  `none` models the panic from dereferencing a nil embed
pointer; otherwise the possibly mutated configuration and the call result are
returned, errors wrapped with the delivery-failure prefix. -/
def Handle (h : DiscordHandler) (r : Record) (now : String)
    (transport : Nat → Except String HttpResponse) :
    Option (DiscordWebhookConfig × Except String Unit) :=
  match buildPayload h.config r now with
  | none => none
  | some payload =>
    let out := sendToDiscord h.config payload h.config.timeout transport
    some (out.1, match out.2 with
      | .error e => .error ("failed to send log to Discord: " ++ e)
      | .ok _ => .ok ())

/-- `WithAttrs` from `handler.go`: a no-op returning the same handler. -/
def WithAttrs (h : DiscordHandler) (_ : List Attr) : DiscordHandler :=
  h

/-- `WithGroup` from `handler.go`: a no-op returning the same handler. -/
def WithGroup (h : DiscordHandler) (_ : String) : DiscordHandler :=
  h

/-- One attribute or group augmentation call on the handler. -/
inductive Augmentation where
  | attrs (as : List Attr)
  | group (g : String)

/-- Apply a sequence of augmentation calls left to right. -/
def applyAugmentations (h : DiscordHandler) : List Augmentation → DiscordHandler
  | [] => h
  | .attrs as :: rest => applyAugmentations (WithAttrs h as) rest
  | .group g :: rest => applyAugmentations (WithGroup h g) rest

/-- Modelled from the spec: the logging facade (standard-library `slog`, not
part of this repository) consults `Enabled` before `Handle`; per spec section
4.2 this check gates whether Handle, embed-building and delivery happen at
all.  `none` in the second component means the record was filtered out. -/
def logDispatch (h : DiscordHandler) (r : Record) (now : String)
    (transport : Nat → Except String HttpResponse) :
    DiscordHandler × Option (Option (DiscordWebhookConfig × Except String Unit)) :=
  let out := Enabled h r.level
  if out.2 then (out.1, some (Handle out.1 r now transport))
  else (out.1, none)

/-- Helper: `sendToDiscord` never assigns to the stored configuration, so the
first component of its result is the configuration it was given. -/
theorem sendToDiscord_config (cfg : DiscordWebhookConfig) (p : Payload) (t : Nat)
    (tr : Nat → Except String HttpResponse) :
    (sendToDiscord cfg p t tr).1 = cfg := by
  cases h : tr (resolveTimeout cfg.timeout t) with
  | error e => simp [sendToDiscord, h]
  | ok resp =>
    simp only [sendToDiscord, h]
    split <;> rfl

/-- Claim C1: with no custom embed function configured, the payload handed to
delivery carries exactly the default embed: title = the severity level name,
description = the record message, color = the color-table entry for the level
name (zero when absent), timestamp = the RFC3339-formatted current time,
one non-inline field per record attribute, and no footer. -/
theorem c1_default_embed (cfg : DiscordWebhookConfig) (r : Record) (now : String)
    (h : cfg.customEmbed = none) :
    buildPayload cfg r now = some
      { username := cfg.username
        avatarURL := cfg.avatarURL
        embeds := [{ title := levelString r.level
                     description := r.message
                     color := (cfg.levelColors.lookup (levelString r.level)).getD 0
                     timestamp := now
                     fields := r.attrs.map
                       (fun a => { name := a.1, value := a.2, inline := false })
                     footer := none }] } := by
  simp [buildPayload, buildEmbed, h, DefaultEmbed]

/-- Claim C1 witness: the spec's worked example (level Warn, message
"disk low", attribute pct=92, color table WARN ↦ 0xf1c40f). -/
theorem c1_default_embed_witness :
    buildPayload ⟨0, 0, "", "", "", [("WARN", 0xf1c40f)], none⟩
      ⟨4, 0, "disk low", [("pct", "92")]⟩ "2024-01-01T00:00:00Z" =
    some { username := ""
           avatarURL := ""
           embeds := [{ title := "WARN"
                        description := "disk low"
                        color := 0xf1c40f
                        timestamp := "2024-01-01T00:00:00Z"
                        fields := [{ name := "pct", value := "92", inline := false }]
                        footer := none }] } := by
  exact c1_default_embed _ _ _ rfl

/-- Claim C2: when the transport yields a response, `sendToDiscord` returns an
error naming the numeric status code when the status is at least 400 and
succeeds when it is below 400; the response body never influences the
result (it is discarded). -/
theorem c2_status_handling (cfg : DiscordWebhookConfig) (p : Payload) (t : Nat)
    (resp : HttpResponse) :
    ((sendToDiscord cfg p t (fun _ => .ok resp)).2 =
      if 400 ≤ resp.statusCode then
        .error ("discord returned non-OK status: " ++ toString resp.statusCode)
      else .ok ()) ∧
    ∀ b : String,
      (sendToDiscord cfg p t (fun _ => .ok { resp with body := b })).2 =
      (sendToDiscord cfg p t (fun _ => .ok resp)).2 := by
  refine ⟨?_, fun b => ?_⟩
  · unfold sendToDiscord
    dsimp only
    split <;> rfl
  · unfold sendToDiscord
    rfl

/-- Claim C3 counterexample: with the minimum level unset (the zero value),
`Enabled` returns false at level -5 (below Debug), so `Enabled` is not true
for every level in that configuration. -/
theorem c3_counterexample :
    (⟨0, 0, "", "", "", [], none⟩ : DiscordWebhookConfig).minLevel = 0 ∧
    (Enabled ⟨⟨0, 0, "", "", "", [], none⟩⟩ (-5)).2 = false :=
  ⟨rfl, rfl⟩

/-- Claim C3 (amended): `Enabled(L)` is true iff `L` is at least the effective
minimum, which is Debug (-4) when the configured minimum is the zero value and
the configured minimum otherwise; with the minimum unset, exactly the levels
at or above Debug are enabled. -/
theorem c3_enabled_iff (h : DiscordHandler) (lvl : Int) :
    (Enabled h lvl).2 = true ↔
      (if h.config.minLevel = 0 then (-4 : Int) else h.config.minLevel) ≤ lvl := by
  unfold Enabled
  dsimp only
  split <;> simp

/-- Claim C4: with a custom embed function configured, its return value is the
embed used, verbatim; when it returns an embed, the payload wraps exactly that
embed, so the default construction never contributes. -/
theorem c4_custom_verbatim (cfg : DiscordWebhookConfig) (r : Record) (now : String)
    (f : CustomEmbed) (hc : cfg.customEmbed = some f) :
    buildEmbed cfg r now = f r cfg.levelColors ∧
    ∀ e, f r cfg.levelColors = some e →
      buildPayload cfg r now =
        some { username := cfg.username, avatarURL := cfg.avatarURL, embeds := [e] } := by
  refine ⟨?_, fun e he => ?_⟩
  · simp [buildEmbed, hc]
  · simp [buildPayload, buildEmbed, hc, he]

/-- Claim C4 witness: a concrete custom function whose output (with a footer
and an inline field, unlike any default embed) is passed through unchanged. -/
theorem c4_custom_verbatim_witness :
    buildEmbed
      ⟨0, 0, "", "", "", [],
        some (fun _ _ => some ⟨"T", "D", 7, "ts", [⟨"k", "v", true⟩], some ⟨"foot"⟩⟩)⟩
      ⟨0, 0, "m", []⟩ "now" =
    some ⟨"T", "D", 7, "ts", [⟨"k", "v", true⟩], some ⟨"foot"⟩⟩ :=
  (c4_custom_verbatim _ _ _ _ rfl).1

/-- Claim C5: every payload `Handle` constructs and hands to the delivery call
contains exactly one embed. -/
theorem c5_one_embed (cfg : DiscordWebhookConfig) (r : Record) (now : String)
    (p : Payload) (h : buildPayload cfg r now = some p) :
    p.embeds.length = 1 := by
  unfold buildPayload at h
  cases hb : buildEmbed cfg r now with
  | none => rw [hb] at h; cases h
  | some e =>
    rw [hb] at h
    injection h with h2
    rw [← h2]
    rfl

/-- Claim C5 witness: a concrete record's payload has a one-element embed
list. -/
theorem c5_one_embed_witness :
    (Payload.mk "" "" [DefaultEmbed ⟨0, 0, "m", []⟩ [] "ts"]).embeds.length = 1 :=
  c5_one_embed ⟨0, 0, "", "", "", [], none⟩ ⟨0, 0, "m", []⟩ "ts" _ rfl

/-- Claim C6: in the `Handle` flow the delivery call receives the configured
timeout; the request is executed with 5 seconds substituted when the
configured timeout is zero (the result depends on the transport only through
its behavior at the resolved timeout) and with the configured value when it is
nonzero, and the stored configuration is returned unchanged. -/
theorem c6_timeout_fallback (cfg : DiscordWebhookConfig) (p : Payload)
    (f g : Nat → Except String HttpResponse)
    (hfg : f (resolveTimeout cfg.timeout cfg.timeout) =
           g (resolveTimeout cfg.timeout cfg.timeout)) :
    sendToDiscord cfg p cfg.timeout f = sendToDiscord cfg p cfg.timeout g ∧
    (sendToDiscord cfg p cfg.timeout f).1 = cfg ∧
    (cfg.timeout = 0 → resolveTimeout cfg.timeout cfg.timeout = 5000000000) ∧
    (cfg.timeout ≠ 0 → resolveTimeout cfg.timeout cfg.timeout = cfg.timeout) := by
  refine ⟨?_, sendToDiscord_config cfg p cfg.timeout f, fun h0 => ?_, fun h0 => ?_⟩
  · simp only [sendToDiscord, hfg]
  · simp [resolveTimeout, h0]
  · simp [resolveTimeout, h0]

/-- Claim C6 witness: with the configured timeout zero, the resolved timeout
is 5 seconds (in nanoseconds) and the stored configuration is unchanged. -/
theorem c6_timeout_fallback_witness :
    resolveTimeout
      (⟨0, 0, "u", "", "", [], none⟩ : DiscordWebhookConfig).timeout
      (⟨0, 0, "u", "", "", [], none⟩ : DiscordWebhookConfig).timeout = 5000000000 :=
  (c6_timeout_fallback ⟨0, 0, "u", "", "", [], none⟩ ⟨"", "", []⟩
    (fun _ => .ok ⟨204, ""⟩) (fun _ => .ok ⟨204, ""⟩) rfl).2.2.1 rfl

/-- Helper: the augmentation operations return the same handler, so any
sequence of them leaves the handler unchanged. -/
theorem applyAugmentations_eq (h : DiscordHandler) (ops : List Augmentation) :
    applyAugmentations h ops = h := by
  induction ops generalizing h with
  | nil => rfl
  | cons op rest ih => cases op <;> exact ih _

/-- Claim C7: `Handle` after any sequence of `WithAttrs`/`WithGroup` calls is
identical to `Handle` without them: augmentation-supplied attributes never
reach the embed. -/
theorem c7_augmentation_noop (h : DiscordHandler) (ops : List Augmentation)
    (r : Record) (now : String) (tr : Nat → Except String HttpResponse) :
    Handle (applyAugmentations h ops) r now tr = Handle h r now tr := by
  rw [applyAugmentations_eq]

/-- Claim C8 counterexample: `Enabled` on a handler whose minimum level is the
zero value overwrites the stored minimum with Debug (-4): the stored
configuration is modified after construction. -/
theorem c8_counterexample :
    (NewDiscordHandler ⟨0, 0, "", "", "", [], none⟩).config.minLevel = 0 ∧
    (Enabled (NewDiscordHandler ⟨0, 0, "", "", "", [], none⟩) 0).1.config.minLevel = -4 :=
  ⟨rfl, rfl⟩

/-- Claim C8 (amended): no operation modifies the stored configuration except
`Enabled`, which, exactly when the stored minimum level is the zero value,
rewrites it to Debug (-4) and changes nothing else; `WithAttrs`, `WithGroup`,
the delivery call and `Handle` leave the configuration unchanged. -/
theorem c8_config_frame (h : DiscordHandler) (lvl : Int) (attrs : List Attr)
    (g : String) (r : Record) (now : String) (p : Payload) (t : Nat)
    (tr : Nat → Except String HttpResponse) :
    ((Enabled h lvl).1 = h ∨
      (h.config.minLevel = 0 ∧
        (Enabled h lvl).1.config = { h.config with minLevel := -4 })) ∧
    (h.config.minLevel ≠ 0 → (Enabled h lvl).1 = h) ∧
    WithAttrs h attrs = h ∧
    WithGroup h g = h ∧
    (sendToDiscord h.config p t tr).1 = h.config ∧
    (∀ c res, Handle h r now tr = some (c, res) → c = h.config) := by
  refine ⟨?_, fun hm => ?_, rfl, rfl, sendToDiscord_config _ _ _ _, fun c res hh => ?_⟩
  · by_cases hm : h.config.minLevel = 0
    · exact Or.inr ⟨hm, by simp [Enabled, hm]⟩
    · exact Or.inl (by simp [Enabled, hm])
  · simp [Enabled, hm]
  · unfold Handle at hh
    cases hb : buildPayload h.config r now with
    | none => rw [hb] at hh; cases hh
    | some payload =>
      rw [hb] at hh
      injection hh with hh2
      have h1 : c = (sendToDiscord h.config payload h.config.timeout tr).1 :=
        (congrArg Prod.fst hh2).symm
      rw [h1, sendToDiscord_config]

/-- Claim C9 counterexample: with the configured minimum unset (zero, i.e.
Info) a record at level -2 is below the configured minimum, yet the dispatch
builds the embed and delivers it, because `Enabled` normalizes the zero
minimum to Debug (-4). -/
theorem c9_counterexample :
    (-2 : Int) < (⟨0, 0, "", "", "", [], none⟩ : DiscordWebhookConfig).minLevel ∧
    ((logDispatch (NewDiscordHandler ⟨0, 0, "", "", "", [], none⟩)
        ⟨-2, 0, "m", []⟩ "ts" (fun _ => .ok ⟨204, ""⟩)).2.map
      (Option.map Prod.snd)) = some (some (.ok ())) :=
  ⟨by decide, rfl⟩

/-- Claim C9 (amended): a record whose level is below the effective minimum
(the configured minimum, or Debug (-4) when the configured minimum is the
zero value) is never embed-built and never delivered: the facade dispatch
filters it out before `Handle` runs. -/
theorem c9_severity_gates (h : DiscordHandler) (r : Record) (now : String)
    (tr : Nat → Except String HttpResponse)
    (hlt : r.level <
      (if h.config.minLevel = 0 then (-4 : Int) else h.config.minLevel)) :
    (logDispatch h r now tr).2 = none := by
  have he : (Enabled h r.level).2 = false := by
    simp only [Enabled]
    split at hlt <;> simp_all
  simp [logDispatch, he]

/-- Claim C9 (amended) witness: with minimum Warn (4), an Info (0) record is
not delivered. -/
theorem c9_severity_gates_witness :
    (logDispatch (NewDiscordHandler ⟨4, 0, "", "", "", [], none⟩)
      ⟨0, 0, "m", []⟩ "ts" (fun _ => .ok ⟨204, ""⟩)).2 = none :=
  c9_severity_gates _ _ _ _ (by decide)

/-- Claim C10: when the configured custom embed function returns a nil embed
pointer (`none`), `Handle` dereferences it and panics (`none` here); when it
returns a non-nil embed, `Handle` completes without the nil dereference. -/
theorem c10_nil_custom_panics (cfg : DiscordWebhookConfig) (r : Record)
    (now : String) (tr : Nat → Except String HttpResponse) (f : CustomEmbed)
    (hc : cfg.customEmbed = some f) :
    (f r cfg.levelColors = none → Handle ⟨cfg⟩ r now tr = none) ∧
    (∀ e, f r cfg.levelColors = some e → (Handle ⟨cfg⟩ r now tr).isSome = true) := by
  constructor
  · intro hn
    simp [Handle, buildPayload, buildEmbed, hc, hn]
  · intro e he
    simp [Handle, buildPayload, buildEmbed, hc, he]

/-- Claim C10 witness: a custom function returning the nil pointer makes
`Handle` panic at a concrete record. -/
theorem c10_nil_custom_panics_witness :
    Handle ⟨⟨0, 0, "", "", "", [], some (fun _ _ => none)⟩⟩ ⟨0, 0, "m", []⟩ "ts"
      (fun _ => .ok ⟨204, ""⟩) = none :=
  (c10_nil_custom_panics _ _ _ _ _ rfl).1 rfl

end SlogDiscord
